import Mathlib

set_option maxRecDepth 8000

/-!
Verification of the photogrammetry importer's file handlers
(`nvm_import_export/nvm_file_handler.py` and
`photogrammetry_importer/file_handlers/meshroom_file_handler.py`)
against its natural-language specification.

The Python code is shallowly embedded: Python strings are lists of
characters (so that every operation reduces inside the kernel), files
are lists of lines (without the trailing newline), Python floats are
modelled as exact rationals (ℚ) — Python's `repr`/`float` round-trip
is exact for finite floats, so exact decimal rendering and re-parsing
is the faithful abstraction — and every fallible Python operation
returns `Except PyError _`, where `PyError` distinguishes the
exception kinds (`assert` failures, `int`/`float` conversion failures,
out-of-range indexing) that the spec collectively calls `FormatError`.
-/

/-- Embedding of Python strings as character lists. -/
abbrev PyStr := List Char

/-- Addition on ℚ via `mkRat`, which (unlike `Rat.add`, marked
irreducible) evaluates inside `decide`; `addQ_eq` proves it is the
ordinary addition. -/
def addQ (a b : ℚ) : ℚ := mkRat (a.num * b.den + b.num * a.den) (a.den * b.den)

/-- Multiplication on ℚ via `mkRat`; `mulQ_eq` proves it is the
ordinary multiplication. -/
def mulQ (a b : ℚ) : ℚ := mkRat (a.num * b.num) (a.den * b.den)

/-- Negation on ℚ via `mkRat`; `negQ_eq` proves it is the ordinary
negation. -/
def negQ (a : ℚ) : ℚ := mkRat (-a.num) a.den

/-- Subtraction on ℚ via `mkRat`. -/
def subQ (a b : ℚ) : ℚ := addQ a (negQ b)

/-- Division on ℚ via `mkRat` (0 when the divisor is 0, as in ℚ);
`divQ_eq` proves it is the ordinary division. -/
def divQ (a b : ℚ) : ℚ :=
  mkRat (a.num * b.den * (if b.num < 0 then -1 else 1)) (a.den * b.num.natAbs)

/-- Integer literal as ℚ via `mkRat`. -/
def intQ (i : Int) : ℚ := mkRat i 1

/-- Character list of a Lean string literal. -/
def pstr (s : String) : PyStr := s.toList

/-- Kinds of Python exceptions raised by the embedded code: a failed
`assert` statement, a failed `int()`/`float()` conversion, and an
out-of-range list index. -/
inductive PyError where
  | assertionError : PyError
  | valueError : PyError
  | indexError : PyError
  | linAlgError : PyError
deriving DecidableEq, Repr

/-- Python `str.rstrip()`: remove trailing whitespace. -/
def pyRstrip (s : PyStr) : PyStr :=
  (s.reverse.dropWhile Char.isWhitespace).reverse

/-- Helper for `pySplit`: walk the characters accumulating the current
token (reversed); whitespace ends the token, empty tokens are dropped. -/
def pySplitAux : PyStr → PyStr → List PyStr
  | [], cur => if cur = [] then [] else [cur.reverse]
  | c :: rest, cur =>
      if c.isWhitespace then
        if cur = [] then pySplitAux rest []
        else cur.reverse :: pySplitAux rest []
      else pySplitAux rest (c :: cur)

/-- Python `str.split()` with no argument: split on runs of whitespace
and discard empty tokens. -/
def pySplit (s : PyStr) : List PyStr := pySplitAux s []

/-- Python `str.isdigit()` restricted to ASCII input (the NVM format is
ASCII per the spec): true iff the string is nonempty and all characters
are decimal digits. -/
def pyIsdigit (s : PyStr) : Bool :=
  s ≠ [] && s.all Char.isDigit

/-- Value of a list of ASCII digit characters, most significant first. -/
def digitsVal (l : List Char) : Nat :=
  l.foldl (fun acc c => 10 * acc + (c.toNat - 48)) 0

/-- Python `int(s)`: optional surrounding whitespace (the embedded
callers pass stripped tokens), an optional sign, then a nonempty run of
ASCII digits; anything else raises `ValueError` (modelled as `none`). -/
def pyInt (s : PyStr) : Option Int :=
  let t := (pyRstrip s).dropWhile Char.isWhitespace
  match t with
  | '-' :: rest =>
      if rest ≠ [] ∧ rest.all Char.isDigit then some (-(digitsVal rest : Int)) else none
  | '+' :: rest =>
      if rest ≠ [] ∧ rest.all Char.isDigit then some (digitsVal rest : Int) else none
  | l =>
      if l ≠ [] ∧ l.all Char.isDigit then some (digitsVal l : Int) else none

/-- Helper for `pyFloat`: parses an unsigned decimal body
`intpart[.fracpart]` with at least one digit overall, exactly into ℚ
(built with `mkRat` so that the value kernel-reduces). -/
def parseUnsignedDec (l : List Char) : Option ℚ :=
  match l.span Char.isDigit with
  | (intPart, rest) =>
    match rest with
    | [] => if intPart ≠ [] then some (mkRat (digitsVal intPart) 1) else none
    | '.' :: fracPart =>
        if fracPart.all Char.isDigit ∧ (intPart ≠ [] ∨ fracPart ≠ []) then
          some (mkRat
            ((digitsVal intPart : Int) * ((10 : Int) ^ fracPart.length) +
              (digitsVal fracPart : Int))
            ((10 : Nat) ^ fracPart.length))
        else none
    | _ => none

/-- Python `float(s)` on decimal literals (no exponent forms, which the
embedded writer never produces): optional sign, digits, optional point
and fraction digits; anything else raises `ValueError` (`none`). The
value is kept exact in ℚ. -/
def pyFloat (s : PyStr) : Option ℚ :=
  let t := (pyRstrip s).dropWhile Char.isWhitespace
  match t with
  | '-' :: rest => (parseUnsignedDec rest).map negQ
  | '+' :: rest => parseUnsignedDec rest
  | l => parseUnsignedDec l

/-- Digit characters of a positive natural, most significant first
(fuel-based so that the kernel reduces it). -/
def natDigitsAux : Nat → Nat → List Char
  | 0, _ => []
  | fuel + 1, n =>
      if n = 0 then []
      else natDigitsAux fuel (n / 10) ++ [Char.ofNat (48 + n % 10)]

/-- Decimal digit string of a natural number. -/
def natDigits (n : Nat) : PyStr :=
  if n = 0 then ['0'] else natDigitsAux (n + 1) n

/-- Python `str(i)` for an int. -/
def pyStrInt (i : Int) : PyStr :=
  if i < 0 then '-' :: natDigits i.natAbs else natDigits i.natAbs

/-- Smallest exponent k ≤ 1200 such that q·10^k is an integer (the
test is integer-arithmetic: den ∣ num·10^k). Every value of a binary
floating-point number has such a k (its denominator is a power of two,
and 1200 exceeds the largest exponent of a double), so the fallback
branch of `pyStrFloat` is never reached on values that model actual
floats. -/
def decExponent (q : ℚ) : Option Nat :=
  (List.range 1200).find? (fun k => (q.num * (10 : Int) ^ k) % (q.den : Int) = 0)

/-- Python `str(f)` for a float `f` (modelled exactly): the shortest
exact decimal rendering, with Python's convention that integral floats
render with a trailing `.0`. -/
def pyStrFloat (q : ℚ) : PyStr :=
  match decExponent q with
  | none => pstr "nan"
  | some k =>
    let n := (q.num * (10 : Int) ^ k) / (q.den : Int)
    let sign : PyStr := if n < 0 then ['-'] else []
    let ds := natDigits n.natAbs
    if k = 0 then sign ++ ds ++ pstr ".0"
    else
      let padded := if ds.length ≤ k then
        List.replicate (k + 1 - ds.length) '0' ++ ds else ds
      let splitPos := padded.length - k
      sign ++ padded.take splitPos ++ ['.'] ++ padded.drop splitPos

/-- Split a character list on a separator character, keeping empty
pieces (the behaviour of Python `str.split(sep)`). -/
def splitOnChar (sep : Char) : PyStr → List PyStr
  | [] => [[]]
  | c :: rest =>
      let r := splitOnChar sep rest
      if c = sep then [] :: r
      else
        match r with
        | [] => [[c]]
        | piece :: more => (c :: piece) :: more

/-- Python (posix) `os.path.basename`: the part after the last slash. -/
def pyBasename (s : PyStr) : PyStr := (splitOnChar '/' s).getLastD []

/-- Python `os.path.join` for two nonempty relative components. -/
def pyJoin (a b : PyStr) : PyStr := a ++ ['/'] ++ b

/-- Python list indexing `l[i]`, raising `IndexError` out of range. -/
def pyIdx {α : Type} (l : List α) (i : Nat) : Except PyError α :=
  match l.get? i with
  | some a => Except.ok a
  | none => Except.error PyError.indexError

/-- Lift `pyInt` into the error monad (a failed conversion raises). -/
def pyIntE (s : PyStr) : Except PyError Int :=
  match pyInt s with
  | some v => Except.ok v
  | none => Except.error PyError.valueError

/-- Lift `pyFloat` into the error monad. -/
def pyFloatE (s : PyStr) : Except PyError ℚ :=
  match pyFloat s with
  | some v => Except.ok v
  | none => Except.error PyError.valueError

/-- Python `assert cond`, raising `AssertionError` when false. -/
def pyAssert (cond : Bool) : Except PyError Unit :=
  if cond then Except.ok () else Except.error PyError.assertionError

/-!
NVM adapter (`nvm_import_export/nvm_file_handler.py`).

Files are modelled as lists of lines (`List PyStr`); `readline` pops
the next line, returning an empty string at EOF as Python does.
-/

/-- Python `file.readline()` over the remaining lines. -/
def readline : List PyStr → PyStr × List PyStr
  | [] => ([], [])
  | l :: ls => (l, ls)

/-- 3-vectors over exact rationals. -/
structure Vec3 where
  x : ℚ
  y : ℚ
  z : ℚ
deriving DecidableEq, Repr

/-- Row-major 3×3 matrices over exact rationals. -/
structure Mat3 where
  m00 : ℚ
  m01 : ℚ
  m02 : ℚ
  m10 : ℚ
  m11 : ℚ
  m12 : ℚ
  m20 : ℚ
  m21 : ℚ
  m22 : ℚ
deriving DecidableEq, Repr

/-- Matrix–vector product R·c, written with the kernel-reducing ℚ
operations. -/
def matVec (R : Mat3) (c : Vec3) : Vec3 :=
  ⟨addQ (addQ (mulQ R.m00 c.x) (mulQ R.m01 c.y)) (mulQ R.m02 c.z),
   addQ (addQ (mulQ R.m10 c.x) (mulQ R.m11 c.y)) (mulQ R.m12 c.z),
   addQ (addQ (mulQ R.m20 c.x) (mulQ R.m21 c.y)) (mulQ R.m22 c.z)⟩

/-- Matrix–vector product R·c in the ordinary field operations of ℚ
(used in claim statements). -/
def matVecStd (R : Mat3) (c : Vec3) : Vec3 :=
  ⟨R.m00 * c.x + R.m01 * c.y + R.m02 * c.z,
   R.m10 * c.x + R.m11 * c.y + R.m12 * c.z,
   R.m20 * c.x + R.m21 * c.y + R.m22 * c.z⟩

/-- Componentwise vector negation (ordinary ℚ negation). -/
def vecNegStd (v : Vec3) : Vec3 := ⟨-v.x, -v.y, -v.z⟩

/-- Determinant of a 3×3 matrix (kernel-reducing ops). -/
def mat3Det (m : Mat3) : ℚ :=
  subQ
    (addQ
      (mulQ m.m00 (subQ (mulQ m.m11 m.m22) (mulQ m.m12 m.m21)))
      (mulQ m.m02 (subQ (mulQ m.m10 m.m21) (mulQ m.m11 m.m20))))
    (mulQ m.m01 (subQ (mulQ m.m10 m.m22) (mulQ m.m12 m.m20)))

/-- Model of `np.linalg.inv` for 3×3 matrices: the adjugate divided by
the determinant, raising `LinAlgError` on a singular matrix. -/
def mat3Inv (m : Mat3) : Except PyError Mat3 :=
  let d := mat3Det m
  if d = 0 then Except.error PyError.linAlgError
  else Except.ok
    ⟨divQ (subQ (mulQ m.m11 m.m22) (mulQ m.m12 m.m21)) d,
     divQ (subQ (mulQ m.m02 m.m21) (mulQ m.m01 m.m22)) d,
     divQ (subQ (mulQ m.m01 m.m12) (mulQ m.m02 m.m11)) d,
     divQ (subQ (mulQ m.m12 m.m20) (mulQ m.m10 m.m22)) d,
     divQ (subQ (mulQ m.m00 m.m22) (mulQ m.m02 m.m20)) d,
     divQ (subQ (mulQ m.m02 m.m10) (mulQ m.m00 m.m12)) d,
     divQ (subQ (mulQ m.m10 m.m21) (mulQ m.m11 m.m20)) d,
     divQ (subQ (mulQ m.m01 m.m20) (mulQ m.m00 m.m21)) d,
     divQ (subQ (mulQ m.m00 m.m11) (mulQ m.m01 m.m10)) d⟩

/-- Quaternion in NVM's (w, x, y, z) component order. -/
structure NvmQuat where
  w : ℚ
  x : ℚ
  y : ℚ
  z : ℚ
deriving DecidableEq, Repr

/-- Modelled from the spec: `nvm_import_export/camera.py` is not part
of the sources, so `Camera.set_quaternion` ("Setting the quaternion
also sets the rotation matrix", per the spec "Set rotation from
quaternion (w,x,y,z order)") is modelled as the standard rotation
matrix of a (not necessarily unit) quaternion, using the rational form
with s = 2/(w²+x²+y²+z²). -/
def quatToRotationMat (q : NvmQuat) : Mat3 :=
  let n := addQ (addQ (mulQ q.w q.w) (mulQ q.x q.x))
    (addQ (mulQ q.y q.y) (mulQ q.z q.z))
  let s := divQ (intQ 2) n
  ⟨subQ (intQ 1) (mulQ s (addQ (mulQ q.y q.y) (mulQ q.z q.z))),
   mulQ s (subQ (mulQ q.x q.y) (mulQ q.w q.z)),
   mulQ s (addQ (mulQ q.x q.z) (mulQ q.w q.y)),
   mulQ s (addQ (mulQ q.x q.y) (mulQ q.w q.z)),
   subQ (intQ 1) (mulQ s (addQ (mulQ q.x q.x) (mulQ q.z q.z))),
   mulQ s (subQ (mulQ q.y q.z) (mulQ q.w q.x)),
   mulQ s (subQ (mulQ q.x q.z) (mulQ q.w q.y)),
   mulQ s (addQ (mulQ q.y q.z) (mulQ q.w q.x)),
   subQ (intQ 1) (mulQ s (addQ (mulQ q.x q.x) (mulQ q.y q.y)))⟩

/-- Camera record produced by the NVM parser. The fields mirror the
attributes set in `NVMFileHandler._parse_cameras`; fields of the
external `Camera` class that the handler never touches (width, height,
image paths) are omitted. -/
structure NvmCamera where
  file_name : PyStr
  quaternion : NvmQuat
  rotationMat : Mat3
  center : Vec3
  normal : Vec3
  translationVec : Vec3
  calibrationMat : Mat3
  id : Nat
deriving DecidableEq, Repr

/-- Faithful embedding of
`NVMFileHandler.compute_camera_coordinate_system_translation_vector`:
t[j] = -(R[j][0]·c[0] + R[j][1]·c[1] + R[j][2]·c[2]). -/
def computeCameraCoordinateSystemTranslationVec (c : Vec3) (R : Mat3) : Vec3 :=
  ⟨negQ (addQ (addQ (mulQ R.m00 c.x) (mulQ R.m01 c.y)) (mulQ R.m02 c.z)),
   negQ (addQ (addQ (mulQ R.m10 c.x) (mulQ R.m11 c.y)) (mulQ R.m12 c.z)),
   negQ (addQ (addQ (mulQ R.m20 c.x) (mulQ R.m21 c.y)) (mulQ R.m22 c.z))⟩

/-- Faithful embedding of the body of the camera loop in
`NVMFileHandler._parse_cameras`: tokenize the line, read the 11 fields,
assert the terminating 0, build the camera (rotation from the
quaternion, center as given, normal = R⁻¹·(0,0,1), translation from
`compute_camera_coordinate_system_translation_vector`, calibration =
diag(f, f, 1), sequential id). -/
def parseOneCamera (line : PyStr) (i : Nat) : Except PyError NvmCamera := do
  let line_values := pySplit line
  let t0 ← pyIdx line_values 0
  let file_name := pyBasename t0
  let focal_length ← pyIdx line_values 1 >>= pyFloatE
  let quaternion_w ← pyIdx line_values 2 >>= pyFloatE
  let quaternion_x ← pyIdx line_values 3 >>= pyFloatE
  let quaternion_y ← pyIdx line_values 4 >>= pyFloatE
  let quaternion_z ← pyIdx line_values 5 >>= pyFloatE
  let quaternion : NvmQuat :=
    ⟨quaternion_w, quaternion_x, quaternion_y, quaternion_z⟩
  let camera_center_x ← pyIdx line_values 6 >>= pyFloatE
  let camera_center_y ← pyIdx line_values 7 >>= pyFloatE
  let camera_center_z ← pyIdx line_values 8 >>= pyFloatE
  let center_vec : Vec3 := ⟨camera_center_x, camera_center_y, camera_center_z⟩
  let _radial_distortion ← pyIdx line_values 9 >>= pyFloatE
  let camera_calibration_matrix : Mat3 :=
    ⟨focal_length, 0, 0, 0, focal_length, 0, 0, 0, 1⟩
  let zero_value ← pyIdx line_values 10 >>= pyFloatE
  let _ ← pyAssert (decide (zero_value = 0))
  let rotation := quatToRotationMat quaternion
  let rotation_inv ← mat3Inv rotation
  let normal := matVec rotation_inv ⟨0, 0, 1⟩
  let translation_vec :=
    computeCameraCoordinateSystemTranslationVec center_vec rotation
  Except.ok
    { file_name := file_name
      quaternion := quaternion
      rotationMat := rotation
      center := center_vec
      normal := normal
      translationVec := translation_vec
      calibrationMat := camera_calibration_matrix
      id := i }

/-- Embedding of the loop of `NVMFileHandler._parse_cameras`: one line
per camera, sequential ids starting at `i`. -/
def parseCamerasAux (lines : List PyStr) (i : Nat) :
    Nat → Except PyError (List NvmCamera × List PyStr)
  | 0 => Except.ok ([], lines)
  | count + 1 => do
      let (line, rest) := readline lines
      let cam ← parseOneCamera line i
      let (cams, rest2) ← parseCamerasAux rest (i + 1) count
      Except.ok (cam :: cams, rest2)

/-- Embedding of `NVMFileHandler._parse_cameras`. -/
def parseCameras (lines : List PyStr) (num_cameras : Nat) :
    Except PyError (List NvmCamera × List PyStr) :=
  parseCamerasAux lines 0 num_cameras

/-- The `Measurement` namedtuple of the NVM handler. -/
structure NvmMeasurement where
  image_index : Int
  feature_index : Int
  x : ℚ
  y : ℚ
deriving DecidableEq, Repr

/-- The `Point` namedtuple of the NVM handler (the `scalars` field,
always `None` for parsed points, is omitted). `coord` and `color` are
kept as lists because the Python code builds them from slices that may
be shorter than 3 on malformed lines. -/
structure NvmPoint where
  coord : List ℚ
  color : List Int
  measurements : List NvmMeasurement
  id : Nat
deriving DecidableEq, Repr

/-- Python `list(map(float, l))`: each conversion can raise. -/
def mapFloatE : List PyStr → Except PyError (List ℚ)
  | [] => Except.ok []
  | s :: rest => do
      let v ← pyFloatE s
      let vs ← mapFloatE rest
      Except.ok (v :: vs)

/-- Python `list(map(int, l))`: each conversion can raise. -/
def mapIntE : List PyStr → Except PyError (List Int)
  | [] => Except.ok []
  | s :: rest => do
      let v ← pyIntE s
      let vs ← mapIntE rest
      Except.ok (v :: vs)

/-- Embedding of the measurement loop of
`NVMFileHandler._parse_nvm_points`. The Python loop reads the slice
`measurements[4·m : 4·(m+1)]` at iteration m; this recursion reads
`take 4` and recurses on `drop 4`, which yields the same slices. Each
of the four fields is an indexed access (`IndexError` when the slice is
short) followed by an `int`/`float` conversion (`ValueError` when the
token is malformed). -/
def parseMeasList : List PyStr → Nat → Except PyError (List NvmMeasurement)
  | _, 0 => Except.ok []
  | meas, k + 1 => do
      let cur := meas.take 4
      let image_index ← pyIdx cur 0 >>= pyIntE
      let feature_index ← pyIdx cur 1 >>= pyIntE
      let x_in_nvm_file ← pyIdx cur 2 >>= pyFloatE
      let y_in_nvm_file ← pyIdx cur 3 >>= pyFloatE
      let rest ← parseMeasList (meas.drop 4) k
      Except.ok (⟨image_index, feature_index, x_in_nvm_file, y_in_nvm_file⟩ :: rest)

/-- Faithful embedding of the body of the point loop in
`NVMFileHandler._parse_nvm_points`: rstrip and tokenize the line, map
`float` over tokens [0:3] and `int` over tokens [3:6], read the
measurement count from token 6 (`IndexError` when absent), then parse
`count` measurements from the tokens after position 7. A negative
declared count makes `range(0, count)` empty, hence `Int.toNat`. -/
def parsePointLine (line : PyStr) (idx : Nat) : Except PyError NvmPoint := do
  let point_line_elements := pySplit (pyRstrip line)
  let xyz_vec ← mapFloatE (point_line_elements.take 3)
  let rgb_vec ← mapIntE ((point_line_elements.drop 3).take 3)
  let number_measurements ← pyIdx point_line_elements 6 >>= pyIntE
  let measurements := point_line_elements.drop 7
  let ms ← parseMeasList measurements number_measurements.toNat
  Except.ok ⟨xyz_vec, rgb_vec, ms, idx⟩

/-- Embedding of the loop of `NVMFileHandler._parse_nvm_points`: one
line per point, sequential ids starting at `idx`. -/
def parseNvmPointsAux (lines : List PyStr) (idx : Nat) :
    Nat → Except PyError (List NvmPoint × List PyStr)
  | 0 => Except.ok ([], lines)
  | count + 1 => do
      let (line, rest) := readline lines
      let p ← parsePointLine line idx
      let (ps, rest2) ← parseNvmPointsAux rest (idx + 1) count
      Except.ok (p :: ps, rest2)

/-- Embedding of `NVMFileHandler._parse_nvm_points`. -/
def parseNvmPoints (lines : List PyStr) (num_3D_points : Nat) :
    Except PyError (List NvmPoint × List PyStr) :=
  parseNvmPointsAux lines 0 num_3D_points

/-- Embedding of the part of `NVMFileHandler.parse_nvm_file` that
follows the header checks: read the camera count, the cameras, the
blank separator, then the optional point section (point count line must
pass `isdigit`, otherwise the file is treated as having no points). -/
def parseNvmBody (r2 : List PyStr) : Except PyError (List NvmCamera × List NvmPoint) := do
  let (l3, r3) := readline r2
  let amount_cameras ← pyIntE (pyRstrip l3)
  let (cameras, r4) ← parseCameras r3 amount_cameras.toNat
  let (l5, r5) := readline r4
  let _ ← pyAssert (pyRstrip l5 == [])
  let (l6, r6) := readline r5
  let current_line := pyRstrip l6
  if pyIsdigit current_line then do
    let amount_points ← pyIntE current_line
    let (points, _) ← parseNvmPoints r6 amount_points.toNat
    Except.ok (cameras, points)
  else
    Except.ok (cameras, [])

/-- Faithful embedding of `NVMFileHandler.parse_nvm_file` over a file
given as its list of lines: assert the `NVM_V3` header line and the
blank second line (both after `rstrip`), then parse the body. -/
def parseNvmFile (lines : List PyStr) : Except PyError (List NvmCamera × List NvmPoint) := do
  let (l1, r1) := readline lines
  let _ ← pyAssert (pyRstrip l1 == pstr "NVM_V3")
  let (l2, r2) := readline r1
  let _ ← pyAssert (pyRstrip l2 == [])
  parseNvmBody r2

/-- Join a list of strings with single spaces (Python `' '.join`). -/
def joinSpace : List PyStr → PyStr
  | [] => []
  | [s] => s
  | s :: rest => s ++ [' '] ++ joinSpace rest

/-- Embedding of `NVMFileHandler.nvm_line`: the written line content is
`content + ' '` (the `os.linesep` terminator is implicit in the
line-list file model). -/
def nvmLine (content : PyStr) : PyStr := content ++ [' ']

/-- Python `str(measurement)` where `measurement` is the `Measurement`
namedtuple: the namedtuple repr `Measurement(image_index=.., 
feature_index=.., x=.., y=..)`, which is what
`NVMFileHandler.write_nvm_file` concatenates into the point line. -/
def measurementStr (m : NvmMeasurement) : PyStr :=
  pstr "Measurement(image_index=" ++ pyStrInt m.image_index ++
  pstr ", feature_index=" ++ pyStrInt m.feature_index ++
  pstr ", x=" ++ pyStrFloat m.x ++
  pstr ", y=" ++ pyStrFloat m.y ++ [')']

/-- Camera line written by `NVMFileHandler.write_nvm_file`:
`file_name \t str(K[0][0]) + ' ' + quaternion fields + ' ' + center
fields + ' 0 0'`. `get_quaternion` and `get_camera_center` of the
external `Camera` class are modelled (from the spec) as returning the
stored quaternion and center. -/
def writeCameraLine (cam : NvmCamera) : PyStr :=
  cam.file_name ++ ['\t'] ++ pyStrFloat cam.calibrationMat.m00 ++ [' '] ++
  joinSpace ([cam.quaternion.w, cam.quaternion.x, cam.quaternion.y,
    cam.quaternion.z].map pyStrFloat) ++ [' '] ++
  joinSpace ([cam.center.x, cam.center.y, cam.center.z].map pyStrFloat) ++
  pstr " 0" ++ pstr " 0"

/-- Point line written by `NVMFileHandler.write_nvm_file`: coordinates,
colors, measurement count, then `' ' + str(measurement)` for each
measurement (the namedtuple repr, see `measurementStr`). -/
def writePointLine (p : NvmPoint) : PyStr :=
  joinSpace (p.coord.map pyStrFloat) ++ [' '] ++
  joinSpace (p.color.map pyStrInt) ++ [' '] ++
  pyStrInt p.measurements.length ++
  (p.measurements.map (fun m => [' '] ++ measurementStr m)).flatten

/-- Faithful embedding of `NVMFileHandler.write_nvm_file`: header,
camera count and camera lines, blank separator, point count and point
lines, then the fixed trailer (each content line carries the trailing
space the writer appends before `os.linesep`). -/
def writeNvmFile (cameras : List NvmCamera) (points : List NvmPoint) : List PyStr :=
  [nvmLine (pstr "NVM_V3"), nvmLine [], nvmLine (pyStrInt cameras.length)] ++
  cameras.map (fun c => writeCameraLine c ++ [' ']) ++
  [[' '], pyStrInt points.length ++ [' ']] ++
  points.map (fun p => writePointLine p ++ [' ']) ++
  [[' '], [' '], [' '], pstr "0", [' '],
   pstr "#the last part of NVM file points to the PLY files ",
   pstr "#the first number is the number of associated PLY files ",
   pstr "#each following number gives a model-index that has PLY ",
   pstr "0"]

deriving instance DecidableEq for Except

/-!
Meshroom adapter
(`photogrammetry_importer/file_handlers/meshroom_file_handler.py`).

The JSON input is modelled as already-decoded typed records (the
`int()`/`float()` conversions the handler applies to the JSON string
fields are reflected in the field types). The reporting sink
`log_report` (external, per the spec `log(level, message)`) is
modelled by accumulating `(level, message)` pairs; every embedded
function returns the log entries it produced.
-/

/-- Log entries produced through the external `log_report` sink. -/
abbrev Log := List (String × PyStr)

/-- Modelled from the spec: the external reporting sink
`log(level, message)` (`log_report` in the source) produces one report. -/
def logReport (level : String) (message : PyStr) : Log := [(level, message)]

/-- A `view` record of a Meshroom SfM JSON file. -/
structure MView where
  poseId : Int
  path : PyStr
  width : Int
  height : Int
  intrinsicId : Int
deriving DecidableEq, Repr

/-- An `intrinsic` record of a Meshroom SfM JSON file
(`distortionParams` is `none` when the key is absent). -/
structure MIntrinsic where
  intrinsicId : Int
  pxFocalLength : ℚ
  principalPointX : ℚ
  principalPointY : ℚ
  distortionParams : Option (List ℚ)
deriving DecidableEq, Repr

/-- The `pose.transform` record of a Meshroom pose: 9 row-major
rotation entries and 3 center entries. -/
structure MTransform where
  rotation : List ℚ
  center : List ℚ
deriving DecidableEq, Repr

/-- A `poses` record of a Meshroom SfM JSON file. -/
structure MPose where
  poseId : Int
  transform : MTransform
deriving DecidableEq, Repr

/-- A `structure` record (landmark) of a Meshroom SfM JSON file. -/
structure MStructurePoint where
  landmarkId : Int
  coordX : List ℚ
  color : List Int
deriving DecidableEq, Repr

/-- A decoded Meshroom SfM JSON document; each section is `none` when
its top-level key is absent (`structureSec` stands for the key
`structure`, a Lean keyword). -/
structure SfmJson where
  views : Option (List MView)
  intrinsics : Option (List MIntrinsic)
  poses : Option (List MPose)
  structureSec : Option (List MStructurePoint)
deriving DecidableEq, Repr

/-- Faithful embedding of `MeshroomFileHandler._get_element`: linear
scan keeping the first element whose id equals the query (the loop
breaks at the first hit), then `assert result is not None` — zero
matches raise `AssertionError`. -/
def getElement {α : Type} (data_list : List α) (idOf : α → Int) (query_id : Int) :
    Except PyError α :=
  match data_list.find? (fun ele => idOf ele == query_id) with
  | some r => Except.ok r
  | none => Except.error PyError.assertionError

/-- Modelled from the spec:
`photogrammetry_importer/utility/blender_camera_utility.check_radial_distortion`
is not part of the sources; per the spec it "emits a warning callback
when distortion exceeds a caller-supplied threshold (suppressible)",
modelled here as a warning for any nonzero distortion. No claim
depends on its exact condition. -/
def checkRadialDistortion (radial_distortion : ℚ) (relative_fp : PyStr) : Log :=
  if radial_distortion = 0 then []
  else logReport "WARNING" (pstr "radial distortion of " ++ relative_fp)

/-- Camera record produced by the Meshroom parser. The `Camera` class
(`photogrammetry_importer/types/camera.py`) is not part of the
sources; its setters are modelled from the spec:
`set_calibration` stores the matrix and the distortion,
`set_rotation_mat` stores the rotation, and
`set_camera_center_after_rotation` stores the center and recomputes
`translation = -R·center` (spec invariant: center and translation are
never out of sync). -/
structure MCamera where
  image_fp_type : PyStr
  image_dp : Option PyStr
  absolute_fp : PyStr
  relative_fp : PyStr
  undistorted_relative_fp : PyStr
  undistorted_absolute_fp : Option PyStr
  width : Int
  height : Int
  calibrationMat : Mat3
  radial_distortion : ℚ
  rotationMat : Mat3
  center : Vec3
  translationVec : Vec3
  view_index : Int
deriving DecidableEq, Repr

/-- Componentwise vector negation with the kernel-reducing ℚ ops. -/
def vecNegQ (v : Vec3) : Vec3 := ⟨negQ v.x, negQ v.y, negQ v.z⟩

/-- Model of `np.array(l).reshape(3, 3).T` on the 9 row-major rotation
entries of a Meshroom pose (a `ValueError` when there are not exactly
9 entries, as numpy raises on reshape). -/
def reshapeTranspose (l : List ℚ) : Except PyError Mat3 :=
  match l with
  | [a0, a1, a2, a3, a4, a5, a6, a7, a8] =>
      Except.ok ⟨a0, a3, a6, a1, a4, a7, a2, a5, a8⟩
  | _ => Except.error PyError.valueError

/-- Model of `np.array(l)` for a 3-entry center list. -/
def listToVec3 (l : List ℚ) : Except PyError Vec3 :=
  match l with
  | [a, b, c] => Except.ok ⟨a, b, c⟩
  | _ => Except.error PyError.valueError

/-- Faithful embedding of the pose loop of
`MeshroomFileHandler._parse_cameras_from_json_data`: for each pose,
record the pose id in the index map, look up the unique view and
intrinsic via `getElement`, build file paths, calibration (focal
length and principal point, distortion from the first
`distortionParams` entry if present and nonempty else 0, warning via
`check_radial_distortion` unless suppressed), transpose the row-major
rotation, and set the center after rotation. -/
def parseCamerasLoop (views : List MView) (intrinsics : List MIntrinsic)
    (image_dp : Option PyStr) (image_fp_type : PyStr)
    (suppress_distortion_warnings : Bool) :
    List MPose → Nat → Except PyError (List MCamera × List (Int × Nat) × Log)
  | [], _ => Except.ok ([], [], [])
  | extrinsic :: restPoses, rec_index => do
      let view_index := extrinsic.poseId
      let corresponding_view ← getElement views MView.poseId view_index
      let absolute_fp := corresponding_view.path
      let relative_fp := pyBasename corresponding_view.path
      let undistorted_relative_fp := pyStrInt extrinsic.poseId ++ pstr ".exr"
      let undistorted_absolute_fp :=
        match image_dp with
        | none => none
        | some dp => some (pyJoin dp undistorted_relative_fp)
      let id_intrinsic := corresponding_view.intrinsicId
      let intrinsic_params ← getElement intrinsics MIntrinsic.intrinsicId id_intrinsic
      let focal_length := intrinsic_params.pxFocalLength
      let cx := intrinsic_params.principalPointX
      let cy := intrinsic_params.principalPointY
      let radial_distortion :=
        match intrinsic_params.distortionParams with
        | some (d :: _) => d
        | _ => 0
      let distortion_log :=
        if suppress_distortion_warnings then []
        else checkRadialDistortion radial_distortion relative_fp
      let camera_calibration_matrix : Mat3 :=
        ⟨focal_length, 0, cx, 0, focal_length, cy, 0, 0, 1⟩
      let rotation ← reshapeTranspose extrinsic.transform.rotation
      let center ← listToVec3 extrinsic.transform.center
      let camera : MCamera :=
        { image_fp_type := image_fp_type
          image_dp := image_dp
          absolute_fp := absolute_fp
          relative_fp := relative_fp
          undistorted_relative_fp := undistorted_relative_fp
          undistorted_absolute_fp := undistorted_absolute_fp
          width := corresponding_view.width
          height := corresponding_view.height
          calibrationMat := camera_calibration_matrix
          radial_distortion := radial_distortion
          rotationMat := rotation
          center := center
          translationVec := vecNegQ (matVec rotation center)
          view_index := view_index }
      let (cams, imap, lg) ←
        parseCamerasLoop views intrinsics image_dp image_fp_type
          suppress_distortion_warnings restPoses (rec_index + 1)
      Except.ok (camera :: cams, (view_index, rec_index) :: imap, distortion_log ++ lg)

/-- Faithful embedding of
`MeshroomFileHandler._parse_cameras_from_json_data`: when any of the
top-level keys `views`, `intrinsics`, `poses` is absent, report an
ERROR and return empty results; otherwise run the pose loop. -/
def parseCamerasFromJsonData (json_data : SfmJson) (image_dp : Option PyStr)
    (image_fp_type : PyStr) (suppress_distortion_warnings : Bool) :
    Except PyError (List MCamera × List (Int × Nat) × Log) :=
  match json_data.views, json_data.intrinsics, json_data.poses with
  | some views, some intrinsics, some extrinsics =>
      parseCamerasLoop views intrinsics image_dp image_fp_type
        suppress_distortion_warnings extrinsics 0
  | _, _, _ =>
      Except.ok ([], [],
        logReport "ERROR"
          (pstr "FILE FORMAT ERROR: Incorrect SfM/JSON file. Must contain the SfM reconstruction results: view, intrinsics and poses."))

/-- The `Point` record built by the Meshroom parser (`scalars` is
always the empty list there). -/
structure MeshroomPoint where
  coord : List ℚ
  color : List Int
  id : Int
deriving DecidableEq, Repr

/-- Faithful embedding of
`MeshroomFileHandler._parse_points_from_json_data`: an absent
`structure` key reports an ERROR and yields no points; otherwise one
point per landmark. The index-map argument is unused, as in the
source. -/
def parsePointsFromJsonData (json_data : SfmJson)
    (_image_index_to_camera_index : List (Int × Nat)) :
    List MeshroomPoint × Log :=
  match json_data.structureSec with
  | none =>
      ([], logReport "ERROR"
        (pstr "FILE FORMAT ERROR: Incorrect SfM/JSON file. Must contain  the SfM reconstruction results: structure."))
  | some structure_list =>
      (structure_list.map (fun json_point =>
        ⟨json_point.coordX, json_point.color, json_point.landmarkId⟩), [])

/-- Faithful embedding of `MeshroomFileHandler.parse_sfm_file` (the
file opening and `json.load` are external; the decoded document is the
input): log the INFO banner, parse the cameras, parse the points only
when the `structure` key is present (otherwise the point list is
simply empty, with no report), log Done. -/
def parseSfmFile (sfm_ifp : PyStr) (json_data : SfmJson)
    (image_idp : Option PyStr) (image_fp_type : PyStr)
    (suppress_distortion_warnings : Bool) :
    Except PyError (List MCamera × List MeshroomPoint × Log) := do
  let lg0 := logReport "INFO" (pstr "parse_sfm_file: ...") ++
    logReport "INFO" (pstr "sfm_ifp: " ++ sfm_ifp)
  let (cams, image_index_to_camera_index, lg1) ←
    parseCamerasFromJsonData json_data image_idp image_fp_type
      suppress_distortion_warnings
  let (points, lg2) :=
    match json_data.structureSec with
    | some _ => parsePointsFromJsonData json_data image_index_to_camera_index
    | none => ([], [])
  let lg3 := logReport "INFO" (pstr "parse_sfm_file: Done")
  Except.ok (cams, points, lg0 ++ lg1 ++ lg2 ++ lg3)

/-- A node record of a Meshroom `.mg` project graph (`uids["0"]`). -/
structure MNode where
  nodeType : PyStr
  uid0 : PyStr
deriving DecidableEq, Repr

/-- The `graph` mapping of a `.mg` file: node keys to node records
(JSON objects have unique keys; lookups take the first binding). -/
abbrev MGraph := List (PyStr × MNode)

/-- Python `key in json_graph`. -/
def hasKey (g : MGraph) (k : PyStr) : Bool := g.any (fun p => p.1 == k)

/-- Python `json_graph[key]` (as an `Option`; the embedded callers
only index keys whose presence was checked). -/
def graphGet (g : MGraph) (k : PyStr) : Option MNode :=
  (g.find? (fun p => p.1 == k)).map Prod.snd

/-- The node key `<node_type>_<n>`. -/
def nodeKey (node_type : PyStr) (n : Int) : PyStr :=
  node_type ++ ['_'] ++ pyStrInt n

/-- The while loop of `MeshroomFileHandler._get_latest_node`: starting
from i, increment while `<node_type>_<i+1>` is in the graph. The
Python loop is unbounded; the fuel `g.length + 1` used by
`getLatestNode` suffices because the loop stops at the first absent
key and a graph with `g.length` entries cannot contain a longer
contiguous key run. -/
def getLatestScan (g : MGraph) (node_type : PyStr) : Nat → Nat → Nat
  | 0, i => i
  | fuel + 1, i =>
      if hasKey g (nodeKey node_type ((i + 1 : Nat) : Int)) then
        getLatestScan g node_type fuel (i + 1)
      else i

/-- Faithful embedding of `MeshroomFileHandler._get_latest_node`:
scan instance numbers upward from 1 while present; 0 found means the
node type never ran (`None`), else return the graph entry of the last
contiguous instance. -/
def getLatestNode (g : MGraph) (node_type : PyStr) : Option MNode :=
  let i := getLatestScan g node_type (g.length + 1) 0
  if i = 0 then none else graphGet g (nodeKey node_type (i : Int))

/-- Faithful embedding of `MeshroomFileHandler._get_node`: node number
-1 selects the latest node; otherwise a direct key lookup whose
failure reports an ERROR and then hits `assert False` (the error side
carries the report produced before the assertion). -/
def getNode (g : MGraph) (node_type : PyStr) (node_number : Int) :
    Except (PyError × Log) (Option MNode × Log) :=
  if node_number = -1 then
    Except.ok (getLatestNode g node_type, [])
  else
    let node_key := nodeKey node_type node_number
    if hasKey g node_key then
      Except.ok (graphGet g node_key, [])
    else
      Except.error (PyError.assertionError,
        logReport "ERROR"
          (pstr "Invalid combination of node type (i.e. " ++ node_type ++
            pstr ") and node number (i.e. " ++ pyStrInt node_number ++
            pstr ") provided"))

/-- Faithful embedding of `MeshroomFileHandler._get_data_fp_of_node`
with the filesystem abstracted as the list `fs` of existing file
paths: try each candidate file name under
`<cache_dp>/<nodeType>/<uid0>/` and return the first that exists. -/
def getDataFpOfNode (fs : List PyStr) (cache_dp : PyStr)
    (data_node : Option MNode) (fn_list : List PyStr) : Option PyStr :=
  match data_node with
  | none => none
  | some node =>
      (fn_list.map (fun fn =>
        pyJoin (pyJoin (pyJoin cache_dp node.nodeType) node.uid0) fn)).find?
        (fun p => fs.contains p)

/-- Faithful embedding of `MeshroomFileHandler._get_node_data_fp`. -/
def getNodeDataFp (fs : List PyStr) (cache_dp : PyStr) (g : MGraph)
    (node_type : PyStr) (node_number : Int) (fn_list : List PyStr) :
    Except (PyError × Log) (Option PyStr × Log) :=
  match getNode g node_type node_number with
  | Except.error e => Except.error e
  | Except.ok (data_node, lg) =>
      Except.ok (getDataFpOfNode fs cache_dp data_node fn_list, lg)

/-!
Concrete sample data used by counterexamples and witnesses.
-/

/-- A point carrying one measurement (0, 1, 0.5, 0.5) at the origin. -/
def ptOneMeasurement : NvmPoint :=
  ⟨[0, 0, 0], [0, 0, 0], [⟨0, 1, mkRat 1 2, mkRat 1 2⟩], 0⟩

/-- A point with no measurements. -/
def ptNoMeasurement : NvmPoint := ⟨[1, mkRat 1 2, 0], [255, 0, 7], [], 0⟩

/-- A well-formed one-camera NVM file (identity quaternion, center
(2,3,4), focal length 1000, no point section). -/
def nvmSampleLines : List PyStr :=
  [pstr "NVM_V3", pstr "", pstr "1",
   pstr "img.jpg 1000.0 1 0 0 0 2 3 4 0 0", pstr "", pstr "x"]

/-- The camera encoded by `nvmSampleLines`. -/
def nvmSampleCam : NvmCamera :=
  ⟨pstr "img.jpg", ⟨1, 0, 0, 0⟩, ⟨1, 0, 0, 0, 1, 0, 0, 0, 1⟩, ⟨2, 3, 4⟩,
   ⟨0, 0, 1⟩, ⟨-2, -3, -4⟩, ⟨1000, 0, 0, 0, 1000, 0, 0, 0, 1⟩, 0⟩

/-- An NVM file whose first line carries a trailing space after
`NVM_V3` (so the line ≠ the literal `NVM_V3`) and whose point-count
line is not numeric. -/
def nvmTrailingSpaceHeader : List PyStr :=
  [pstr "NVM_V3 ", pstr "", pstr "0", pstr "", pstr "x"]

/-- A point line declaring 2 measurements but carrying only 3 trailing
tokens. -/
def shortPointLine : PyStr := pstr "0 0 0 0 0 0 2 1 1 0.5"

/-- Two distinct Meshroom views sharing `poseId` 7. -/
def mviewA : MView := ⟨7, pstr "a.jpg", 100, 80, 3⟩

/-- Second view with `poseId` 7 but a different path. -/
def mviewB : MView := ⟨7, pstr "b.jpg", 100, 80, 3⟩

/-- An intrinsic with id 3 and empty distortion list. -/
def mintr3 : MIntrinsic := ⟨3, 1000, 50, 40, some []⟩

/-- A pose with `poseId` 7 and identity transform. -/
def mpose7 : MPose := ⟨7, ⟨[1, 0, 0, 0, 1, 0, 0, 0, 1], [0, 0, 0]⟩⟩

/-- An SfM document whose `views` list contains two views with the
`poseId` referenced by the single pose. -/
def sfmDupViews : SfmJson :=
  ⟨some [mviewA, mviewB], some [mintr3], some [mpose7], none⟩

/-- An SfM document with all camera keys present (empty sections) and
no `structure` key. -/
def sfmNoStructure : SfmJson := ⟨some [], some [], some [], none⟩

/-- An SfM document missing the `views` key. -/
def sfmNoViews : SfmJson := ⟨none, some [], some [], none⟩

/-- Graph node `StructureFromMotion_1`. -/
def nodeSfm1 : MNode := ⟨pstr "StructureFromMotion", pstr "uidaaa"⟩

/-- Graph node `StructureFromMotion_2`. -/
def nodeSfm2 : MNode := ⟨pstr "StructureFromMotion", pstr "uidbbb"⟩

/-- A graph with two StructureFromMotion instances. -/
def graphTwoSfm : MGraph :=
  [(pstr "StructureFromMotion_1", nodeSfm1),
   (pstr "StructureFromMotion_2", nodeSfm2)]

/-- A filesystem containing only instance 2's cache file. -/
def fsOnlyInstance2 : List PyStr :=
  [pyJoin (pyJoin (pyJoin (pstr "proj/MeshroomCache")
    (pstr "StructureFromMotion")) (pstr "uidbbb")) (pstr "cameras.sfm")]

/-!
Helper lemmas.
-/

theorem addQ_eq (a b : ℚ) : addQ a b = a + b := by
  unfold addQ
  rw [Rat.mkRat_eq_divInt, Rat.divInt_eq_div]
  conv_rhs => rw [← Rat.num_div_den a, ← Rat.num_div_den b]
  have ha : ((a.den : ℚ)) ≠ 0 := by exact_mod_cast a.den_nz
  have hb : ((b.den : ℚ)) ≠ 0 := by exact_mod_cast b.den_nz
  field_simp

theorem mulQ_eq (a b : ℚ) : mulQ a b = a * b := by
  unfold mulQ
  rw [Rat.mkRat_eq_divInt, Rat.divInt_eq_div]
  conv_rhs => rw [← Rat.num_div_den a, ← Rat.num_div_den b]
  have ha : ((a.den : ℚ)) ≠ 0 := by exact_mod_cast a.den_nz
  have hb : ((b.den : ℚ)) ≠ 0 := by exact_mod_cast b.den_nz
  field_simp

theorem negQ_eq (a : ℚ) : negQ a = -a := by
  unfold negQ
  rw [Rat.mkRat_eq_divInt, Rat.divInt_eq_div]
  push_cast
  rw [neg_div, Rat.num_div_den]

theorem subQ_eq (a b : ℚ) : subQ a b = a - b := by
  unfold subQ
  rw [addQ_eq, negQ_eq, sub_eq_add_neg]

theorem intQ_eq (i : Int) : intQ i = (i : ℚ) := by
  unfold intQ
  simp [Rat.mkRat_eq_divInt]

theorem divQ_eq (a b : ℚ) : divQ a b = a / b := by
  unfold divQ
  by_cases hb0 : b = 0
  · subst hb0; simp
  · have hnum : b.num ≠ 0 := Rat.num_ne_zero.mpr hb0
    have ha : ((a.den : ℚ)) ≠ 0 := by exact_mod_cast a.den_nz
    have hb : ((b.den : ℚ)) ≠ 0 := by exact_mod_cast b.den_nz
    have hbn : ((b.num : ℚ)) ≠ 0 := by exact_mod_cast hnum
    rcases lt_or_gt_of_ne hnum with h | h
    · rw [if_pos h, Rat.mkRat_eq_divInt, Rat.divInt_eq_div]
      conv_rhs => rw [← Rat.num_div_den a, ← Rat.num_div_den b]
      push_cast
      rw [abs_of_neg (show ((b.num : ℚ)) < 0 by exact_mod_cast h)]
      field_simp
    · rw [if_neg (by omega), Rat.mkRat_eq_divInt, Rat.divInt_eq_div]
      conv_rhs => rw [← Rat.num_div_den a, ← Rat.num_div_den b]
      push_cast
      rw [abs_of_pos (show (0 : ℚ) < ((b.num : ℚ)) by exact_mod_cast h)]
      field_simp

theorem matVec_eq_std (R : Mat3) (c : Vec3) : matVec R c = matVecStd R c := by
  unfold matVec matVecStd
  simp only [addQ_eq, mulQ_eq]

theorem exceptBindError {ε α β : Type} (e : ε) (f : α → Except ε β) :
    (Except.error e >>= f) = Except.error e := rfl

theorem exceptBindOk {ε α β : Type} (a : α) (f : α → Except ε β) :
    (Except.ok a >>= f) = f a := rfl

theorem readline_eq (lines : List PyStr) :
    readline lines = (lines.headD [], lines.tail) := by
  cases lines <;> rfl

theorem computeTranslation_eq_neg_matVec (c : Vec3) (R : Mat3) :
    computeCameraCoordinateSystemTranslationVec c R = vecNegStd (matVecStd R c) := by
  unfold computeCameraCoordinateSystemTranslationVec vecNegStd matVecStd
  simp only [negQ_eq, addQ_eq, mulQ_eq]


theorem exceptBind_ok_iff {ε α β : Type} (x : Except ε α) (f : α → Except ε β) (b : β) :
    (x >>= f = Except.ok b) ↔ ∃ a, x = Except.ok a ∧ f a = Except.ok b := by
  cases x with
  | error e => simp [exceptBindError]
  | ok a => simp [exceptBindOk]

theorem pyAssert_ok_iff (c : Bool) (u : Unit) : pyAssert c = Except.ok u ↔ c = true := by
  cases c <;> simp [pyAssert]

theorem parseOneCamera_translation (line : PyStr) (i : Nat) (cam : NvmCamera)
    (h : parseOneCamera line i = Except.ok cam) :
    cam.translationVec = vecNegStd (matVecStd cam.rotationMat cam.center) := by
  unfold parseOneCamera at h
  simp only [exceptBind_ok_iff, pyAssert_ok_iff] at h
  repeat obtain ⟨_, _, h⟩ := h
  exact computeTranslation_eq_neg_matVec _ _

theorem parseCamerasAux_translation (n : Nat) :
    ∀ (lines : List PyStr) (i : Nat) (cams : List NvmCamera) (rest : List PyStr),
      parseCamerasAux lines i n = Except.ok (cams, rest) →
      ∀ cam ∈ cams,
        cam.translationVec = vecNegStd (matVecStd cam.rotationMat cam.center) := by
  induction n with
  | zero =>
      intro lines i cams rest h cam hmem
      unfold parseCamerasAux at h
      simp only [Except.ok.injEq, Prod.mk.injEq] at h
      rw [← h.1] at hmem
      cases hmem
  | succ k ih =>
      intro lines i cams rest h cam hmem
      unfold parseCamerasAux at h
      rw [readline_eq] at h
      simp only [exceptBind_ok_iff] at h
      obtain ⟨c0, hc0, pr, hpr, hfin⟩ := h
      obtain ⟨cams2, rest2⟩ := pr
      simp only [Except.ok.injEq, Prod.mk.injEq] at hfin
      rw [← hfin.1] at hmem
      rcases List.mem_cons.mp hmem with hcam | hcam
      · subst hcam
        exact parseOneCamera_translation _ _ _ hc0
      · exact ih _ _ _ _ hpr cam hcam

/-- C2: for every camera produced by the NVM parser, the stored
translation vector equals -R·C (R the camera's rotation matrix, C its
center) — exactly, in the rational model of float arithmetic, so in
particular within floating-point tolerance; center and translation are
never stored mutually inconsistent. -/
theorem nvm_parsed_translation_eq_neg_RC
    (lines : List PyStr) (cams : List NvmCamera) (pts : List NvmPoint)
    (h : parseNvmFile lines = Except.ok (cams, pts)) :
    ∀ cam ∈ cams,
      cam.translationVec = vecNegStd (matVecStd cam.rotationMat cam.center) := by
  unfold parseNvmFile at h
  simp only [readline_eq, exceptBind_ok_iff, pyAssert_ok_iff] at h
  obtain ⟨u1, hb1, u2, hb2, hbody⟩ := h
  unfold parseNvmBody at hbody
  simp only [readline_eq, exceptBind_ok_iff, pyAssert_ok_iff] at hbody
  obtain ⟨nc, hnc, pr, hpr, hrest⟩ := hbody
  obtain ⟨cameras, r4⟩ := pr
  unfold parseCameras at hpr
  obtain ⟨u3, hb3, hrest⟩ := hrest
  split at hrest
  · rcases hpe : pyIntE (pyRstrip (r4.tail.headD [])) with e | np
    · rw [hpe] at hrest
      simp only [exceptBindError] at hrest
      exact absurd hrest (by simp)
    · rw [hpe] at hrest
      simp only [exceptBindOk] at hrest
      rcases hpp : parseNvmPoints r4.tail.tail np.toNat with e2 | pr2
      · rw [hpp] at hrest
        simp only [exceptBindError] at hrest
        exact absurd hrest (by simp)
      · rw [hpp] at hrest
        simp only [exceptBindOk, Except.ok.injEq, Prod.mk.injEq] at hrest
        intro cam hmem
        refine parseCamerasAux_translation _ _ _ _ _ hpr cam ?_
        rw [← hrest.1] at hmem
        exact hmem
  · simp only [Except.ok.injEq, Prod.mk.injEq] at hrest
    intro cam hmem
    refine parseCamerasAux_translation _ _ _ _ _ hpr cam ?_
    rw [← hrest.1] at hmem
    exact hmem

/-- Witness for C2 at a concrete file: `nvmSampleLines` parses to one
camera with identity rotation and center (2,3,4), and its stored
translation is -R·C = (-2,-3,-4). -/
theorem nvm_parsed_translation_eq_neg_RC_witness :
    parseNvmFile nvmSampleLines = Except.ok ([nvmSampleCam], []) ∧
    nvmSampleCam.translationVec =
      vecNegStd (matVecStd nvmSampleCam.rotationMat nvmSampleCam.center) :=
  ⟨by decide,
   nvm_parsed_translation_eq_neg_RC nvmSampleLines [nvmSampleCam] []
     (by decide) nvmSampleCam (by decide)⟩

theorem pyIdx_short {α : Type} (l : List α) (i : Nat) (h : l.length ≤ i) :
    pyIdx l i = Except.error PyError.indexError := by
  unfold pyIdx
  rw [List.get?_eq_none.mpr h]

theorem pyIdx_ok_iff {α : Type} (l : List α) (i : Nat) (a : α) :
    pyIdx l i = Except.ok a ↔ l.get? i = some a := by
  unfold pyIdx
  cases h : l.get? i <;> simp

theorem parseMeasList_short (k : Nat) :
    ∀ meas : List PyStr, meas.length < 4 * k →
      ∃ e, parseMeasList meas k = Except.error e := by
  induction k with
  | zero =>
      intro meas h
      exact absurd h (by omega)
  | succ k ih =>
      intro meas h
      rcases hres : parseMeasList meas (k + 1) with e | v
      · exact ⟨e, rfl⟩
      · exfalso
        unfold parseMeasList at hres
        simp only [exceptBind_ok_iff] at hres
        obtain ⟨i0, ⟨t0, ht0, hi0⟩, i1, ⟨t1, ht1, hi1⟩, i2, ⟨t2, ht2, hi2⟩,
          i3, ⟨t3, ht3, hi3⟩, rest, hrest, hfin⟩ := hres
        by_cases hlen : meas.length < 4
        · rw [pyIdx_short _ _ (by rw [List.length_take]; omega)] at ht3
          cases ht3
        · obtain ⟨e, he⟩ := ih (meas.drop 4) (by rw [List.length_drop]; omega)
          rw [he] at hrest
          cases hrest

/-- C4: an NVM point line whose declared measurement count is K but
which carries fewer than 4·K trailing whitespace tokens after the XYZ,
RGB and count fields makes the parser raise (an `IndexError` on the
missing token, or a `ValueError` on a malformed earlier token — a
parse failure surfaced to the caller either way, which the spec calls
`FormatError`). -/
theorem nvm_point_line_short_measurements
    (line : PyStr) (idx : Nat) (t6 : PyStr) (K : Nat)
    (h6 : (pySplit (pyRstrip line)).get? 6 = some t6)
    (hK : pyInt t6 = some (K : Int))
    (hshort : (pySplit (pyRstrip line)).length - 7 < 4 * K) :
    ∃ e, parsePointLine line idx = Except.error e := by
  rcases hres : parsePointLine line idx with e | p
  · exact ⟨e, rfl⟩
  · exfalso
    unfold parsePointLine at hres
    simp only [exceptBind_ok_iff] at hres
    obtain ⟨xyz, hxyz, rgb, hrgb, nm, ⟨t, ht, hnm⟩, ms, hms, hfin⟩ := hres
    rw [pyIdx_ok_iff] at ht
    rw [h6] at ht
    cases ht
    rw [pyIntE, hK] at hnm
    cases hnm
    obtain ⟨e, he⟩ := parseMeasList_short (K : Int).toNat
      ((pySplit (pyRstrip line)).drop 7)
      (by rw [List.length_drop]; simp only [Int.toNat_natCast]; omega)
    rw [he] at hms
    cases hms

/-- Witness for C4: the line `shortPointLine` declares 2 measurements
but carries only 3 trailing tokens, and parsing it raises. -/
theorem nvm_point_line_short_measurements_witness :
    ∃ e, parsePointLine shortPointLine 0 = Except.error e :=
  nvm_point_line_short_measurements shortPointLine 0 (pstr "2") 2
    (by decide) (by decide) (by decide)

/-- C6 (amended): the NVM parser raises on a first line that does not
equal `NVM_V3` after stripping trailing whitespace, or a second line
that is not blank after stripping trailing whitespace (the claim as
frozen — “not exactly the literal `NVM_V3`” — is refuted by
`nvm_header_exact_counterexample`: the code applies `rstrip` before
comparing, so trailing whitespace is tolerated); with the correct
header it proceeds to read the camera count (the body). -/
theorem nvm_header_check (lines : List PyStr) :
    (pyRstrip (lines.headD []) ≠ pstr "NVM_V3" →
      parseNvmFile lines = Except.error PyError.assertionError) ∧
    (pyRstrip (lines.headD []) = pstr "NVM_V3" →
      pyRstrip (lines.tail.headD []) ≠ [] →
      parseNvmFile lines = Except.error PyError.assertionError) ∧
    (pyRstrip (lines.headD []) = pstr "NVM_V3" →
      pyRstrip (lines.tail.headD []) = [] →
      parseNvmFile lines = parseNvmBody lines.tail.tail) := by
  refine ⟨?_, ?_, ?_⟩
  · intro hne
    unfold parseNvmFile
    have hb : (pyRstrip (lines.headD []) == pstr "NVM_V3") = false :=
      beq_eq_false_iff_ne.mpr hne
    simp only [readline_eq, pyAssert, hb, Bool.false_eq_true, if_false,
      exceptBindError]
  · intro heq hne
    unfold parseNvmFile
    have hb1 : (pyRstrip (lines.headD []) == pstr "NVM_V3") = true :=
      beq_iff_eq.mpr heq
    have hb2 : (pyRstrip (lines.tail.headD []) == ([] : PyStr)) = false :=
      beq_eq_false_iff_ne.mpr hne
    simp only [readline_eq, pyAssert, hb1, hb2, Bool.false_eq_true, if_true,
      if_false, exceptBindOk, exceptBindError]
  · intro heq1 heq2
    unfold parseNvmFile
    have hb1 : (pyRstrip (lines.headD []) == pstr "NVM_V3") = true :=
      beq_iff_eq.mpr heq1
    have hb2 : (pyRstrip (lines.tail.headD []) == ([] : PyStr)) = true :=
      beq_iff_eq.mpr heq2
    simp only [readline_eq, pyAssert, hb1, hb2, if_true, exceptBindOk]

/-- Counterexample to C6 as frozen: a file whose first line is
`NVM_V3 ` (with a trailing space, hence not exactly the literal
`NVM_V3`) does not raise — it parses successfully. -/
theorem nvm_header_exact_counterexample :
    nvmTrailingSpaceHeader.headD [] ≠ pstr "NVM_V3" ∧
    parseNvmFile nvmTrailingSpaceHeader = Except.ok ([], []) :=
  ⟨by decide, by decide⟩

/-- Witness for the amended C6 at concrete inputs: a wrong first line
raises, a wrong second line raises, and the exact header proceeds to
the body. -/
theorem nvm_header_check_witness :
    parseNvmFile [pstr "BUNDLE"] = Except.error PyError.assertionError ∧
    parseNvmFile [pstr "NVM_V3", pstr "q"] = Except.error PyError.assertionError ∧
    parseNvmFile [pstr "NVM_V3", pstr ""] = parseNvmBody [] :=
  ⟨(nvm_header_check [pstr "BUNDLE"]).1 (by decide),
   (nvm_header_check [pstr "NVM_V3", pstr "q"]).2.1 (by decide) (by decide),
   (nvm_header_check [pstr "NVM_V3", pstr ""]).2.2 (by decide) (by decide)⟩

theorem parseNvmPointsAux_length (n : Nat) :
    ∀ (lines : List PyStr) (idx : Nat) (pts : List NvmPoint) (rest : List PyStr),
      parseNvmPointsAux lines idx n = Except.ok (pts, rest) → pts.length = n := by
  induction n with
  | zero =>
      intro lines idx pts rest h
      unfold parseNvmPointsAux at h
      simp only [Except.ok.injEq, Prod.mk.injEq] at h
      rw [← h.1]
      rfl
  | succ k ih =>
      intro lines idx pts rest h
      unfold parseNvmPointsAux at h
      rw [readline_eq] at h
      simp only [exceptBind_ok_iff] at h
      obtain ⟨p0, hp0, pr, hpr, hfin⟩ := h
      obtain ⟨pts2, rest2⟩ := pr
      simp only [Except.ok.injEq, Prod.mk.injEq] at hfin
      rw [← hfin.1]
      simp only [List.length_cons]
      rw [ih _ _ _ _ hpr]

/-- C7: after the camera section and the blank separator, a
point-count line that is not a digit string makes the NVM parser
succeed with the parsed cameras and zero points (no error); a valid
non-negative count M makes it parse exactly M point lines. -/
theorem nvm_point_count_tolerance
    (r2 : List PyStr) (N : Nat) (cams : List NvmCamera) (r4 : List PyStr)
    (hN : pyInt (pyRstrip (r2.headD [])) = some (N : Int))
    (hcams : parseCameras r2.tail N = Except.ok (cams, r4))
    (hblank : pyRstrip (r4.headD []) = []) :
    (¬ pyIsdigit (pyRstrip (r4.tail.headD [])) = true →
      parseNvmBody r2 = Except.ok (cams, [])) ∧
    (∀ (M : Nat) (pts : List NvmPoint) (rest : List PyStr),
      pyIsdigit (pyRstrip (r4.tail.headD [])) = true →
      pyInt (pyRstrip (r4.tail.headD [])) = some (M : Int) →
      parseNvmPoints r4.tail.tail M = Except.ok (pts, rest) →
      parseNvmBody r2 = Except.ok (cams, pts) ∧ pts.length = M) := by
  have hNE : pyIntE (pyRstrip (r2.headD [])) = Except.ok (N : Int) := by
    rw [pyIntE, hN]
  have hblankb : (pyRstrip (r4.headD []) == ([] : PyStr)) = true :=
    beq_iff_eq.mpr hblank
  constructor
  · intro hnd
    unfold parseNvmBody
    simp only [readline_eq, hNE, exceptBindOk, Int.toNat_natCast, hcams,
      pyAssert, hblankb, if_true]
    rw [if_neg hnd]
  · intro M pts rest hd hM hpts
    have hME : pyIntE (pyRstrip (r4.tail.headD [])) = Except.ok (M : Int) := by
      rw [pyIntE, hM]
    constructor
    · unfold parseNvmBody
      simp only [readline_eq, hNE, exceptBindOk, Int.toNat_natCast, hcams,
        pyAssert, hblankb, if_true]
      rw [if_pos hd]
      simp only [hME, exceptBindOk, Int.toNat_natCast, hpts, exceptBindOk]
    · exact parseNvmPointsAux_length M _ _ _ _ hpts

/-- Witness for C7 at concrete bodies: a non-numeric point-count line
(`x`) yields the cameras with zero points and no error, and a count of
1 followed by one point line yields exactly one point. -/
theorem nvm_point_count_tolerance_witness :
    parseNvmBody [pstr "0", pstr "", pstr "x"] = Except.ok ([], []) ∧
    parseNvmBody [pstr "0", pstr "", pstr "1", pstr "0.5 0 0 1 2 3 0"] =
      Except.ok ([], [⟨[mkRat 1 2, 0, 0], [1, 2, 3], [], 0⟩]) ∧
    ([(⟨[mkRat 1 2, 0, 0], [1, 2, 3], [], 0⟩ : NvmPoint)]).length = 1 :=
  ⟨(nvm_point_count_tolerance [pstr "0", pstr "", pstr "x"] 0 []
      [pstr "", pstr "x"] (by decide) (by decide) (by decide)).1 (by decide),
   ((nvm_point_count_tolerance
      [pstr "0", pstr "", pstr "1", pstr "0.5 0 0 1 2 3 0"] 0 []
      [pstr "", pstr "1", pstr "0.5 0 0 1 2 3 0"] (by decide) (by decide)
      (by decide)).2 1 [⟨[mkRat 1 2, 0, 0], [1, 2, 3], [], 0⟩] []
      (by decide) (by decide) (by decide)).1,
   ((nvm_point_count_tolerance
      [pstr "0", pstr "", pstr "1", pstr "0.5 0 0 1 2 3 0"] 0 []
      [pstr "", pstr "1", pstr "0.5 0 0 1 2 3 0"] (by decide) (by decide)
      (by decide)).2 1 [⟨[mkRat 1 2, 0, 0], [1, 2, 3], [], 0⟩] []
      (by decide) (by decide) (by decide)).2⟩

/-- C10: the NVM camera parser stores only the basename (final path
component) of the file-name token as `file_name`, so two camera lines
whose path tokens differ only in directory components parse to the
same stored `file_name` — the original path token is not recoverable
from the parsed camera. -/
theorem nvm_camera_file_name_is_basename
    (line : PyStr) (i : Nat) (cam : NvmCamera) (t0 : PyStr) (rest : List PyStr)
    (hsplit : pySplit line = t0 :: rest)
    (hok : parseOneCamera line i = Except.ok cam) :
    cam.file_name = pyBasename t0 ∧
    ((parseOneCamera (pstr "dirA/img.jpg 1000.0 1 0 0 0 0 0 0 0 0") 0).map
        NvmCamera.file_name = Except.ok (pstr "img.jpg") ∧
      (parseOneCamera (pstr "dirB/img.jpg 1000.0 1 0 0 0 0 0 0 0 0") 0).map
        NvmCamera.file_name = Except.ok (pstr "img.jpg") ∧
      pstr "dirA/img.jpg" ≠ pstr "dirB/img.jpg") := by
  constructor
  · unfold parseOneCamera at hok
    rw [hsplit] at hok
    simp only [exceptBind_ok_iff, pyAssert_ok_iff] at hok
    obtain ⟨t, ht, hok⟩ := hok
    rw [pyIdx_ok_iff] at ht
    simp only [List.get?, Option.some.injEq] at ht
    subst ht
    repeat obtain ⟨_, _, hok⟩ := hok
    rfl
  · exact ⟨by decide, by decide, by decide⟩

/-- Witness for C10 at a concrete camera line with a directory
component in its file-name token. -/
theorem nvm_camera_file_name_is_basename_witness :
    (⟨pstr "pic.png", ⟨1, 0, 0, 0⟩, ⟨1, 0, 0, 0, 1, 0, 0, 0, 1⟩, ⟨0, 0, 0⟩,
      ⟨0, 0, 1⟩, ⟨0, 0, 0⟩, ⟨1, 0, 0, 0, 1, 0, 0, 0, 1⟩, 0⟩ : NvmCamera).file_name =
      pyBasename (pstr "sub/pic.png") ∧
    ((parseOneCamera (pstr "dirA/img.jpg 1000.0 1 0 0 0 0 0 0 0 0") 0).map
        NvmCamera.file_name = Except.ok (pstr "img.jpg") ∧
      (parseOneCamera (pstr "dirB/img.jpg 1000.0 1 0 0 0 0 0 0 0 0") 0).map
        NvmCamera.file_name = Except.ok (pstr "img.jpg") ∧
      pstr "dirA/img.jpg" ≠ pstr "dirB/img.jpg") :=
  nvm_camera_file_name_is_basename
    (pstr "sub/pic.png 1.0 1 0 0 0 0 0 0 0 0") 0
    ⟨pstr "pic.png", ⟨1, 0, 0, 0⟩, ⟨1, 0, 0, 0, 1, 0, 0, 0, 1⟩, ⟨0, 0, 0⟩,
      ⟨0, 0, 1⟩, ⟨0, 0, 0⟩, ⟨1, 0, 0, 0, 1, 0, 0, 0, 1⟩, 0⟩
    (pstr "sub/pic.png")
    [pstr "1.0", pstr "1", pstr "0", pstr "0", pstr "0", pstr "0", pstr "0",
      pstr "0", pstr "0", pstr "0"]
    (by decide) (by decide)

/-- C1 (failing-input evaluation): the NVM round-trip breaks on any
point with at least one measurement. `write_nvm_file` serializes each
measurement as `str(measurement)` — the `Measurement` namedtuple repr
`Measurement(image_index=…, feature_index=…, x=…, y=…)` — instead of
its four space-separated fields, so re-parsing the written file raises
a `ValueError` at `int('Measurement(image_index=0,')`; the written
point line is shown literally in the second conjunct. -/
theorem nvm_roundtrip_measurement_failure :
    parseNvmFile (writeNvmFile [] [ptOneMeasurement]) =
      Except.error PyError.valueError ∧
    (writeNvmFile [] [ptOneMeasurement]).get? 5 =
      some (pstr
        "0.0 0.0 0.0 0 0 0 1 Measurement(image_index=0, feature_index=1, x=0.5, y=0.5) ") :=
  ⟨by decide, by decide⟩

/-- C8: a Meshroom JSON document missing any of the top-level keys
`views`, `intrinsics`, `poses` makes the camera parse return an empty
camera list and an empty index map after reporting an ERROR, without
raising. -/
theorem meshroom_missing_key_reports_error
    (j : SfmJson) (dp : Option PyStr) (ft : PyStr) (sup : Bool)
    (h : j.views = none ∨ j.intrinsics = none ∨ j.poses = none) :
    parseCamerasFromJsonData j dp ft sup =
      Except.ok ([], [],
        logReport "ERROR"
          (pstr "FILE FORMAT ERROR: Incorrect SfM/JSON file. Must contain the SfM reconstruction results: view, intrinsics and poses.")) := by
  obtain ⟨v, ii, p, s⟩ := j
  unfold parseCamerasFromJsonData
  rcases v with _ | vl <;> rcases ii with _ | il <;> rcases p with _ | pl <;>
    first
      | rfl
      | (exfalso
         simp only at h
         rcases h with h | h | h <;> cases h)

/-- Witness for C8 at a concrete document that lacks `views`. -/
theorem meshroom_missing_key_reports_error_witness :
    parseCamerasFromJsonData sfmNoViews none [] true =
      Except.ok ([], [],
        logReport "ERROR"
          (pstr "FILE FORMAT ERROR: Incorrect SfM/JSON file. Must contain the SfM reconstruction results: view, intrinsics and poses.")) :=
  meshroom_missing_key_reports_error sfmNoViews none [] true (Or.inl (by decide))

/-- C5 (amended): a Meshroom document without the `structure` key
yields an empty point collection and succeeds, with the cameras of the
same input unaffected — but, contrary to the claim as frozen, no
warning is reported for the missing section
(`meshroom_missing_structure_no_warning_counterexample`): the only log
entries beyond those of the camera parse are the three INFO lines of
`parse_sfm_file` itself. -/
theorem meshroom_missing_structure_empty_points
    (ip : PyStr) (j : SfmJson) (dp : Option PyStr) (ft : PyStr) (sup : Bool)
    (cams : List MCamera) (imap : List (Int × Nat)) (lg : Log)
    (hs : j.structureSec = none)
    (hc : parseCamerasFromJsonData j dp ft sup = Except.ok (cams, imap, lg)) :
    parseSfmFile ip j dp ft sup =
      Except.ok (cams, [],
        logReport "INFO" (pstr "parse_sfm_file: ...") ++
        logReport "INFO" (pstr "sfm_ifp: " ++ ip) ++ lg ++
        logReport "INFO" (pstr "parse_sfm_file: Done")) := by
  unfold parseSfmFile
  simp only [hc, exceptBindOk, hs, List.append_nil, List.append_assoc]

/-- Counterexample to C5 as frozen: on a concrete document with all
camera keys present and no `structure` key, `parse_sfm_file` succeeds
with empty points and its whole log consists of INFO entries — no
warning about the missing section is reported. -/
theorem meshroom_missing_structure_no_warning_counterexample :
    parseSfmFile (pstr "f.sfm") sfmNoStructure none [] true =
      Except.ok ([], [],
        [("INFO", pstr "parse_sfm_file: ..."),
         ("INFO", pstr "sfm_ifp: f.sfm"),
         ("INFO", pstr "parse_sfm_file: Done")]) ∧
    ([("INFO", pstr "parse_sfm_file: ..."),
      ("INFO", pstr "sfm_ifp: f.sfm"),
      ("INFO", pstr "parse_sfm_file: Done")] : Log).all
        (fun entry => entry.1 == "INFO") = true :=
  ⟨by rfl, by decide⟩

/-- Witness for the amended C5 at the concrete document
`sfmNoStructure`. -/
theorem meshroom_missing_structure_empty_points_witness :
    parseSfmFile (pstr "f.sfm") sfmNoStructure none [] true =
      Except.ok ([], [],
        logReport "INFO" (pstr "parse_sfm_file: ...") ++
        logReport "INFO" (pstr "sfm_ifp: " ++ pstr "f.sfm") ++ [] ++
        logReport "INFO" (pstr "parse_sfm_file: Done")) :=
  meshroom_missing_structure_empty_points (pstr "f.sfm") sfmNoStructure
    none [] true [] [] [] (by decide) (by rfl)

theorem find?_append_first {α : Type} (p : α → Bool) :
    ∀ (l1 : List α) (e : α) (l2 : List α), (∀ x ∈ l1, p x = false) → p e = true →
      (l1 ++ e :: l2).find? p = some e := by
  intro l1
  induction l1 with
  | nil =>
      intro e l2 h hp
      rw [List.nil_append, List.find?_cons_of_pos _ hp]
  | cons a as ih =>
      intro e l2 h hp
      rw [List.cons_append, List.find?_cons_of_neg, ih e l2
        (fun x hx => h x (List.mem_cons_of_mem a hx)) hp]
      simp [h a (List.mem_cons_self a as)]

/-- C3 (amended): in the Meshroom lookup helper `_get_element`, zero
matches for the queried id is an unconditionally fatal assertion
failure, but — contrary to the claim as frozen — multiple matches are
NOT fatal: the loop breaks at the first hit, so the first matching
element is silently used
(`meshroom_duplicate_view_not_fatal_counterexample`). -/
theorem getElement_zero_fatal_first_match
    {α : Type} (idOf : α → Int) (q : Int) :
    (∀ l : List α, (∀ x ∈ l, idOf x ≠ q) →
      getElement l idOf q = Except.error PyError.assertionError) ∧
    (∀ (l1 : List α) (e : α) (l2 : List α), (∀ x ∈ l1, idOf x ≠ q) →
      idOf e = q → getElement (l1 ++ e :: l2) idOf q = Except.ok e) := by
  constructor
  · intro l hl
    unfold getElement
    rw [List.find?_eq_none.mpr]
    intro x hx
    simp only [beq_iff_eq]
    exact hl x hx
  · intro l1 e l2 hl1 he
    unfold getElement
    rw [find?_append_first _ l1 e l2
      (fun x hx => by simp only [beq_eq_false_iff_ne]; exact hl1 x hx)
      (by simp only [beq_iff_eq]; exact he)]

/-- Counterexample to C3 as frozen: `sfmDupViews` contains two
distinct views sharing the `poseId` referenced by its single pose, yet
the camera parse succeeds (no fatal failure) and resolves the lookup
to the first matching view (`a.jpg`). -/
theorem meshroom_duplicate_view_not_fatal_counterexample :
    mviewA.poseId = mviewB.poseId ∧ mviewA ≠ mviewB ∧
    (parseCamerasFromJsonData sfmDupViews none [] true).map
      (fun r => r.1.map MCamera.absolute_fp) = Except.ok [pstr "a.jpg"] :=
  ⟨by decide, by decide, by rfl⟩

/-- Witness for the amended C3: a query matching no view is fatal; a
query matching two views returns the first. -/
theorem getElement_zero_fatal_first_match_witness :
    getElement [mviewA] MView.poseId 9 = Except.error PyError.assertionError ∧
    getElement ([] ++ mviewA :: [mviewB]) MView.poseId 7 = Except.ok mviewA :=
  ⟨(getElement_zero_fatal_first_match MView.poseId 9).1 [mviewA] (by decide),
   (getElement_zero_fatal_first_match MView.poseId 7).2 [] mviewA [mviewB]
     (by decide) (by decide)⟩

theorem getLatestScan_stops (g : MGraph) (t : PyStr) (n : Nat)
    (h2 : hasKey g (nodeKey t ((n + 1 : Nat) : Int)) = false) :
    ∀ (fuel i : Nat), i ≤ n → n - i < fuel →
      (∀ j : Nat, i < j → j ≤ n → hasKey g (nodeKey t (j : Int)) = true) →
      getLatestScan g t fuel i = n := by
  intro fuel
  induction fuel with
  | zero =>
      intro i h1 hf h3
      exact absurd hf (by omega)
  | succ f ih =>
      intro i hle hf hall
      unfold getLatestScan
      by_cases hi : i = n
      · subst hi
        rw [h2]
        simp
      · have hlt : i < n := lt_of_le_of_ne hle hi
        have hk : hasKey g (nodeKey t ((i + 1 : Nat) : Int)) = true :=
          hall (i + 1) (by omega) (by omega)
        rw [hk]
        simp only [if_true]
        exact ih (i + 1) (by omega) (by omega)
          (fun j hj1 hj2 => hall j (by omega) hj2)

/-- C9: `.mg` graph resolution. (1) When instance 1 of a node type is
absent, "latest" resolution yields not-found (`none`, and the data
file-path resolution succeeds with `none` — no error). (2) When
instances 1..n are present and n+1 is absent (the scan stops at the
first absent key; `n ≤ g.length` always holds for such a contiguous
run, since the n keys are distinct entries of the graph), "latest"
resolution returns instance n's node, and the data file-path
resolution returns that instance's existing cache file path. (3) An
explicit request for an instance number whose key is absent is a
reported ERROR followed by a fatal assertion. -/
theorem meshroom_graph_latest_and_explicit
    (g : MGraph) (t : PyStr) (fs : List PyStr) (cache_dp : PyStr)
    (fns : List PyStr) :
    (hasKey g (nodeKey t ((1 : Nat) : Int)) = false →
      getLatestNode g t = none ∧
      getNodeDataFp fs cache_dp g t (-1) fns = Except.ok (none, [])) ∧
    (∀ n : Nat, 1 ≤ n → n ≤ g.length →
      (∀ j : Nat, 1 ≤ j → j ≤ n → hasKey g (nodeKey t (j : Int)) = true) →
      hasKey g (nodeKey t ((n + 1 : Nat) : Int)) = false →
      getLatestNode g t = graphGet g (nodeKey t (n : Int)) ∧
      getNodeDataFp fs cache_dp g t (-1) fns =
        Except.ok (getDataFpOfNode fs cache_dp
          (graphGet g (nodeKey t (n : Int))) fns, [])) ∧
    (∀ m : Int, m ≠ -1 → hasKey g (nodeKey t m) = false →
      getNode g t m = Except.error (PyError.assertionError,
        logReport "ERROR" (pstr "Invalid combination of node type (i.e. " ++ t ++
          pstr ") and node number (i.e. " ++ pyStrInt m ++ pstr ") provided"))) := by
  refine ⟨?_, ?_, ?_⟩
  · intro h1
    have hscan : getLatestScan g t (g.length + 1) 0 = 0 :=
      getLatestScan_stops g t 0 h1 (g.length + 1) 0 (by omega) (by omega)
        (fun j hj1 hj2 => by omega)
    have hlatest : getLatestNode g t = none := by
      unfold getLatestNode
      rw [hscan]
      simp
    refine ⟨hlatest, ?_⟩
    unfold getNodeDataFp getNode
    rw [if_pos rfl, hlatest]
    rfl
  · intro n hn1 hn2 hall h2
    have hscan : getLatestScan g t (g.length + 1) 0 = n :=
      getLatestScan_stops g t n h2 (g.length + 1) 0 (by omega) (by omega)
        (fun j hj1 hj2 => hall j (by omega) hj2)
    have hlatest : getLatestNode g t = graphGet g (nodeKey t (n : Int)) := by
      unfold getLatestNode
      rw [hscan]
      rw [if_neg (by omega)]
    refine ⟨hlatest, ?_⟩
    unfold getNodeDataFp getNode
    rw [if_pos rfl, hlatest]
  · intro m hm hk
    unfold getNode
    rw [if_neg hm]
    simp [hk]

/-- Witness for C9 at concrete data: an empty graph has no latest
`Texturing` node; in `graphTwoSfm` (instances 1 and 2 present, 3
absent) "latest" resolves to instance 2, whose cache file — the only
one present in `fsOnlyInstance2` — is returned; an explicit request
for the absent instance 5 is the reported fatal error. -/
theorem meshroom_graph_latest_and_explicit_witness :
    (getLatestNode [] (pstr "Texturing") = none ∧
      getNodeDataFp fsOnlyInstance2 (pstr "proj/MeshroomCache") []
        (pstr "Texturing") (-1) [pstr "texturedMesh.obj"] =
        Except.ok (none, [])) ∧
    (getLatestNode graphTwoSfm (pstr "StructureFromMotion") =
      graphGet graphTwoSfm (nodeKey (pstr "StructureFromMotion") ((2 : Nat) : Int)) ∧
      getNodeDataFp fsOnlyInstance2 (pstr "proj/MeshroomCache") graphTwoSfm
        (pstr "StructureFromMotion") (-1) [pstr "cameras.sfm"] =
        Except.ok (getDataFpOfNode fsOnlyInstance2 (pstr "proj/MeshroomCache")
          (graphGet graphTwoSfm
            (nodeKey (pstr "StructureFromMotion") ((2 : Nat) : Int)))
          [pstr "cameras.sfm"], [])) ∧
    getDataFpOfNode fsOnlyInstance2 (pstr "proj/MeshroomCache")
      (graphGet graphTwoSfm (nodeKey (pstr "StructureFromMotion") ((2 : Nat) : Int)))
      [pstr "cameras.sfm"] =
      some (pstr "proj/MeshroomCache/StructureFromMotion/uidbbb/cameras.sfm") ∧
    getNode graphTwoSfm (pstr "StructureFromMotion") 5 =
      Except.error (PyError.assertionError,
        logReport "ERROR"
          (pstr "Invalid combination of node type (i.e. " ++
            pstr "StructureFromMotion" ++
            pstr ") and node number (i.e. " ++ pyStrInt 5 ++
            pstr ") provided")) :=
  ⟨(meshroom_graph_latest_and_explicit [] (pstr "Texturing") fsOnlyInstance2
      (pstr "proj/MeshroomCache") [pstr "texturedMesh.obj"]).1 (by decide),
   (meshroom_graph_latest_and_explicit graphTwoSfm (pstr "StructureFromMotion")
      fsOnlyInstance2 (pstr "proj/MeshroomCache") [pstr "cameras.sfm"]).2.1 2
      (by decide) (by decide)
      (fun j hj1 hj2 => by
        have hj : j = 1 ∨ j = 2 := by omega
        rcases hj with hj | hj <;> subst hj <;> decide)
      (by decide),
   by decide,
   (meshroom_graph_latest_and_explicit graphTwoSfm (pstr "StructureFromMotion")
      fsOnlyInstance2 (pstr "proj/MeshroomCache") [pstr "cameras.sfm"]).2.2 5
      (by decide) (by decide)⟩
